import Mathlib

/-!
Verification of the flow-construction core of flowgrind (`src/source.c`):
the address-resolver/socket-factory `name2socket` and the admission
controller `add_flow_source`.

The C code is embedded shallowly.  External calls whose outcome the code
merely observes (`getaddrinfo`, `socket`, `connect`,
`set_window_size_directed`, `calloc`, `set_flow_tcp_options`,
`getsockopt(TCP_CONGESTION)`, `get_pmtu`) are driven by an explicit
environment record, and the side-effecting calls the claims talk about
(socket creation, buffer-size application, connect, close, flow teardown)
are recorded in an event trace.  Machine pointers become `Option`, byte
buffers become `List Nat`, and the global flow table becomes an explicit
`DaemonState` threaded through `add_flow_source`.
-/

namespace Flowgrind

/-- Direction of a socket-buffer adjustment: SO_SNDBUF or SO_RCVBUF. -/
inductive Dir where
  | sndDir
  | rcvDir
deriving DecidableEq, Repr

/-- Observable side effects of the embedded code, in program order. -/
inductive Event where
  /-- a successful `socket()` call returning descriptor `fd` -/
  | evSocket (fd : Nat)
  /-- `set_window_size_directed(fd, req, dir)` returning kernel-effective size `eff` -/
  | evSetWin (fd : Nat) (d : Dir) (req eff : Int)
  /-- a `connect()` system call on descriptor `fd` -/
  | evConnect (fd : Nat)
  /-- a `close()` system call on descriptor `fd` -/
  | evClose (fd : Nat)
  /-- the per-candidate warning logged after a failed connect -/
  | evWarn (fd : Nat)
  /-- a call to `uninit_flow`; `freedError` records whether the flow still
      owned an error message at teardown time -/
  | evUninit (freedError : Bool)
  /-- the `fg_pcap_go` fire-and-forget capture hook -/
  | evPcap
deriving DecidableEq, Repr

/-- `PF_INET` as on Linux. -/
def PF_INET : Nat := 2

/-- `PF_INET6` as on Linux. -/
def PF_INET6 : Nat := 10

/-- One address candidate produced by `getaddrinfo`, together with the
outcomes the environment chooses for the system calls made on it:
`sockFd` is `some fd` when `socket()` succeeds, `sockErr` the `errno`
text when it fails; `effSnd`/`effRcv` are the kernel-effective buffer
sizes `set_window_size_directed` reports; `connOk`/`connErr` the
`connect()` outcome; `numericText` the bytes of the address's canonical
numeric textual form (what `inet_ntoa`/`inet_ntop` would print);
`addrLen` its `ai_addrlen`. -/
structure Candidate where
  family : Nat
  sockFd : Option Nat
  sockErr : String
  effSnd : Int
  effRcv : Int
  connOk : Bool
  connErr : String
  numericText : List Nat
  addrLen : Nat
deriving DecidableEq, Repr

/-- Environment for one `name2socket` call: the resolver outcome and the
candidate list with per-candidate syscall outcomes.  `errno0` is the
value of `errno` on entry to the candidate loop. -/
structure ResolveEnv where
  gaiOk : Bool
  gaiErr : String
  candidates : List Candidate
  errno0 : String
deriving DecidableEq, Repr

/-- Structured error messages produced by the core (the C code formats
these into strings; the constructors keep the payloads the claims talk
about). -/
inductive ErrMsg where
  /-- "Can not accept another flow, already handling MAX_FLOW flows." -/
  | capacityExceeded
  /-- "could not allocate memory for read/write blocks" -/
  | allocFail
  /-- "getaddrinfo() failed: %s" -/
  | gaiFail (gaiText : String)
  /-- "Could not establish connection to \"%s:%d\": %s" -/
  | connFail (host : List Nat) (port : Nat) (sysErr : String)
  /-- "Could not create data socket: %s" with the flow's own error -/
  | sockFail (inner : ErrMsg)
  /-- "Could not create data socket: (null)" — the flow had no error -/
  | sockFailNull
  /-- error message attached by `set_flow_tcp_options` -/
  | tcpOptFail (text : String)
  /-- "failed to determine actual congestion control algorithm: %s" -/
  | ccFail (sysErr : String)
deriving DecidableEq, Repr

/-- Model of `strncpy(dst, src, n)` on byte buffers: copies at most `n`
bytes of `src` (a NUL-free text), zero-pads up to `n` when `src` is
shorter, and leaves `dst` beyond `n` untouched. -/
def strncpyBuf (dst src : List Nat) (n : Nat) : List Nat :=
  (src.take n ++ List.replicate (n - src.length) 0) ++ dst.drop n

/-- Model of `inet_ntop` writing into a 256-byte buffer: the numeric text
followed by a terminating NUL, the rest of the buffer untouched. -/
def ntopBuf (dst src : List Nat) : List Nat :=
  (src ++ [0]) ++ dst.drop (src.length + 1)

/-- The in-place rewrite of `server_name` performed by `name2socket` on a
successful connect (source.c lines 110-119): `strncpy` of `inet_ntoa`
output plus forced NUL at index 255 for IPv4, `inet_ntop` for IPv6,
nothing for other families. -/
def rewriteName (c : Candidate) (name : List Nat) : List Nat :=
  if c.family = PF_INET then
    (strncpyBuf name c.numericText 256).set 255 0
  else if c.family = PF_INET6 then
    ntopBuf name c.numericText
  else
    name

/-- Mutable state threaded through the candidate loop of `name2socket`:
the `server_name` buffer, `errno`, and the two caller output parameters
(`none` while never written). -/
structure LoopSt where
  name : List Nat
  errno : String
  sndOut : Option Int
  rcvOut : Option Int
deriving DecidableEq, Repr

/-- The `set_window_size_directed` calls on a freshly created socket
(source.c lines 101-104): send direction first, then receive, each only
when the corresponding caller pointer is non-null. -/
def winEvents (sndPtr rcvPtr : Bool) (sndReq rcvReq : Int) (c : Candidate) (fd : Nat) :
    List Event :=
  (if sndPtr then [Event.evSetWin fd Dir.sndDir sndReq c.effSnd] else []) ++
  (if rcvPtr then [Event.evSetWin fd Dir.rcvDir rcvReq c.effRcv] else [])

/-- The candidate loop of `name2socket` (source.c lines 94-126).  For each
candidate: try `socket()` (on failure, `errno` updates and the loop
continues); apply the directed buffer sizes; if `do_connect` is unset,
break with this candidate; otherwise `connect()` — on success rewrite the
host buffer and break, on failure log a warning, `close` the socket, set
`errno` and continue.  Returns the chosen candidate (`none` when the list
was exhausted), the final state, and the event trace. -/
def candLoop (doConnect sndPtr rcvPtr : Bool) (sndReq rcvReq : Int) :
    List Candidate → LoopSt → Option Candidate × LoopSt × List Event
  | [], st => (none, st, [])
  | c :: rest, st =>
    match c.sockFd with
    | none =>
      candLoop doConnect sndPtr rcvPtr sndReq rcvReq rest { st with errno := c.sockErr }
    | some fd =>
      let st1 : LoopSt :=
        { st with
          sndOut := if sndPtr then some c.effSnd else st.sndOut
          rcvOut := if rcvPtr then some c.effRcv else st.rcvOut }
      let headEvs : List Event :=
        Event.evSocket fd :: winEvents sndPtr rcvPtr sndReq rcvReq c fd
      if doConnect then
        if c.connOk then
          (some c, { st1 with name := rewriteName c st1.name },
           headEvs ++ [Event.evConnect fd])
        else
          let rec0 := candLoop doConnect sndPtr rcvPtr sndReq rcvReq rest
            { st1 with errno := c.connErr }
          (rec0.1, rec0.2.1,
           headEvs ++ [Event.evConnect fd, Event.evWarn fd, Event.evClose fd] ++ rec0.2.2)
      else
        (some c, st1, headEvs)

/-- Result of `name2socket`: the returned descriptor (`none` for -1), the
error attached to the flow via `flow_error` on failure, the candidate the
loop stopped at, the final `server_name` buffer, the caller output
parameters, the resolved-address output (`some (family, addrLen)` when
`saptr`/`lenp` were supplied and the call succeeded), and the trace. -/
structure N2SOut where
  retFd : Option Nat
  flowErr : Option ErrMsg
  chosen : Option Candidate
  name : List Nat
  sndOut : Option Int
  rcvOut : Option Int
  addrOut : Option (Nat × Nat)
  trace : List Event
deriving DecidableEq, Repr

/-- Shallow embedding of `name2socket` (source.c lines 70-148).
`saPtr`, `rcvPtr`, `sndPtr` record whether the caller passed non-null
`saptr`/`lenp`, `read_buffer_size` and `send_buffer_size` pointers. -/
def name2socket (env : ResolveEnv) (doConnect saPtr rcvPtr sndPtr : Bool)
    (rcvReq sndReq : Int) (port : Nat) (name : List Nat) : N2SOut :=
  if env.gaiOk = false then
    { retFd := none
      flowErr := some (ErrMsg.gaiFail env.gaiErr)
      chosen := none
      name := name
      sndOut := none
      rcvOut := none
      addrOut := none
      trace := [] }
  else
    let r := candLoop doConnect sndPtr rcvPtr sndReq rcvReq env.candidates
      { name := name, errno := env.errno0, sndOut := none, rcvOut := none }
    match r.1 with
    | none =>
      { retFd := none
        flowErr := some (ErrMsg.connFail r.2.1.name port r.2.1.errno)
        chosen := none
        name := r.2.1.name
        sndOut := r.2.1.sndOut
        rcvOut := r.2.1.rcvOut
        addrOut := none
        trace := r.2.2 }
    | some c =>
      { retFd := c.sockFd
        flowErr := none
        chosen := some c
        name := r.2.1.name
        sndOut := r.2.1.sndOut
        rcvOut := r.2.1.rcvOut
        addrOut := if saPtr then some (c.family, c.addrLen) else none
        trace := r.2.2 }

/-- Lifecycle states of a flow visible to this core. -/
inductive FlowState where
  | GRIND_WAIT_CONNECT
deriving DecidableEq, Repr

/-- General transfer settings copied by value from the request
(`struct _flow_settings`, the fields this core reads). -/
structure Settings where
  maximum_block_size : Nat
  requested_read_buffer_size : Int
  requested_send_buffer_size : Int
  byte_counting : Bool
deriving DecidableEq, Repr

/-- Source-role settings (`struct _flow_source_settings`):
`destination_host` is the 256-byte mutable host buffer. -/
structure SourceSettings where
  destination_host : List Nat
  destination_port : Nat
  late_connect : Bool
deriving DecidableEq, Repr

/-- A flow record (`struct _flow`, the fields this core touches).
Nullable pointers become `Option`; the resolved address is kept as its
`(family, addrLen)` identity. -/
structure Flow where
  id : Nat
  state : FlowState
  fd : Option Nat
  write_block : Option (List Nat)
  read_block : Option (List Nat)
  settings : Settings
  source_settings : SourceSettings
  addr : Option (Nat × Nat)
  error : Option ErrMsg
  connect_called : Bool
  pmtu : Int
deriving DecidableEq, Repr

/-- Zero settings, the content of a freshly default-initialized flow. -/
def defaultSettings : Settings :=
  { maximum_block_size := 0
    requested_read_buffer_size := 0
    requested_send_buffer_size := 0
    byte_counting := false }

/-- Zero source settings of a freshly default-initialized flow. -/
def defaultSourceSettings : SourceSettings :=
  { destination_host := []
    destination_port := 0
    late_connect := false }

/-- Modelled from the spec: `init_flow` is declared in source.c (line 67)
but defined outside this repository.  Per the spec it default-initializes
the Flow — buffers null, state awaiting-connect, no socket, no resolved
address, no error, the connect-issued flag false — and assigns the next
sequential flow identifier. -/
def init_flow (id : Nat) : Flow :=
  { id := id
    state := FlowState.GRIND_WAIT_CONNECT
    fd := none
    write_block := none
    read_block := none
    settings := defaultSettings
    source_settings := defaultSourceSettings
    addr := none
    error := none
    connect_called := false
    pmtu := 0 }

/-- Modelled from the spec: `uninit_flow` is declared in source.c (line
68) but defined outside this repository.  Per the spec, teardown releases
every owned resource — socket closed, both buffers freed, resolved
address freed, any pending error message freed — each nullable-safe.
The emitted `evUninit` event records whether an error message was still
owned (and hence freed) at teardown time. -/
def uninit_flow (f : Flow) : Flow × List Event :=
  ({ f with
      fd := none
      write_block := none
      read_block := none
      addr := none
      error := none },
   Event.evUninit f.error.isSome ::
     (match f.fd with
      | some fd => [Event.evClose fd]
      | none => []))

/-- Model of `calloc(1, size)`: a zero-initialized buffer of `size` bytes
when the allocation succeeds, `none` otherwise. -/
def callocBlock (ok : Bool) (size : Nat) : Option (List Nat) :=
  if ok then some (List.replicate size 0) else none

/-- The byte-counting pre-fill of the write buffer (source.c lines
179-183): byte `i` becomes `i & 0xff`, i.e. `i % 256`. -/
def byteCountFill (size : Nat) : List Nat :=
  (List.range size).map (fun i => i % 256)

/-- The daemon's global registry state: `num_flows` and the `flows`
table, plus the sequential id counter used by `init_flow`. -/
structure DaemonState where
  num_flows : Nat
  flows : List Flow
  next_flow_id : Nat
deriving DecidableEq, Repr

/-- An admission request (`struct _request_add_flow_source`): the settings
to copy in, and the response fields this core populates (`r.error`,
`flow_id`, the kernel-granted buffer sizes, the congestion-control
algorithm name). -/
structure Request where
  settings : Settings
  source_settings : SourceSettings
  r_error : Option ErrMsg
  flow_id : Nat
  real_read_buffer_size : Int
  real_send_buffer_size : Int
  cc_alg : String
deriving DecidableEq, Repr

/-- Environment for one `add_flow_source` call: outcomes of the two
`calloc` calls, the resolver environment, the `set_flow_tcp_options`
outcome (`some text` means failure with that error attached to the flow —
the function itself lives outside this repository), whether the platform
has `TCP_CONGESTION` and the `getsockopt` outcome there, whether libpcap
is compiled in, the outcome of the eager `connect` call, and the value
`get_pmtu` reports. -/
structure AfsEnv where
  callocWriteOk : Bool
  callocReadOk : Bool
  resolve : ResolveEnv
  tcpOptsErr : Option String
  hasTcpCongestion : Bool
  ccOk : Bool
  ccAlg : String
  ccErr : String
  hasPcap : Bool
  eagerConnectOk : Bool
  pmtu : Int
deriving DecidableEq, Repr

/-- Result of `add_flow_source`: the return value (0 or -1), the new
daemon state, the request with its response fields, and the trace. -/
structure AfsOut where
  ret : Int
  ds : DaemonState
  req : Request
  trace : List Event
deriving DecidableEq, Repr

/-- The rollback sequence `uninit_flow(flow); num_flows--` shared by every
failure path of `add_flow_source` after the slot was reserved; the
uninitialized flow record stays in its (now unreachable) slot. -/
def rollbackFlow (ds : DaemonState) (slot : Nat) (f : Flow) (tr : List Event) :
    DaemonState × List Event :=
  let u := uninit_flow f
  ({ ds with num_flows := ds.num_flows - 1, flows := ds.flows.set slot u.1 },
   tr ++ u.2)

/-- Shallow embedding of `add_flow_source` (source.c lines 150-232),
parameterized by `MAX_FLOWS`. -/
def add_flow_source (maxFlows : Nat) (env : AfsEnv) (ds : DaemonState) (req : Request) :
    AfsOut :=
  if maxFlows ≤ ds.num_flows then
    { ret := -1
      ds := ds
      req := { req with r_error := some ErrMsg.capacityExceeded }
      trace := [] }
  else
    let slot := ds.num_flows
    let ds1 : DaemonState :=
      { ds with num_flows := ds.num_flows + 1, next_flow_id := ds.next_flow_id + 1 }
    let f0 := init_flow ds.next_flow_id
    let f1 := { f0 with settings := req.settings, source_settings := req.source_settings }
    let size := req.settings.maximum_block_size
    let f2 :=
      { f1 with
        write_block := callocBlock env.callocWriteOk size
        read_block := callocBlock env.callocReadOk size }
    if f2.write_block = none ∨ f2.read_block = none then
      let rb := rollbackFlow ds1 slot f2 []
      { ret := -1
        ds := rb.1
        req := { req with r_error := some ErrMsg.allocFail }
        trace := rb.2 }
    else
      let f3 :=
        if req.settings.byte_counting then
          { f2 with write_block := some (byteCountFill size) }
        else f2
      let f4 := { f3 with state := FlowState.GRIND_WAIT_CONNECT }
      -- the flow's settings and source_settings are the request's, copied by
      -- value above, so the arguments are read off the request directly
      let n2s := name2socket env.resolve false true true true
        req.settings.requested_read_buffer_size req.settings.requested_send_buffer_size
        req.source_settings.destination_port req.source_settings.destination_host
      let req1 :=
        { req with
          real_read_buffer_size := n2s.rcvOut.getD req.real_read_buffer_size
          real_send_buffer_size := n2s.sndOut.getD req.real_send_buffer_size }
      let f5 :=
        { f4 with
          fd := n2s.retFd
          source_settings := { f4.source_settings with destination_host := n2s.name }
          addr := n2s.addrOut
          error := n2s.flowErr }
      if n2s.retFd = none then
        let rb := rollbackFlow ds1 slot f5 n2s.trace
        let sockMsg : ErrMsg :=
          match f5.error with
          | some e => ErrMsg.sockFail e
          | none => ErrMsg.sockFailNull
        { ret := -1
          ds := rb.1
          req := { req1 with r_error := some sockMsg }
          trace := rb.2 }
      else
        match env.tcpOptsErr with
        | some m =>
          let f6 := { f5 with error := some (ErrMsg.tcpOptFail m) }
          let req2 := { req1 with r_error := f6.error }
          let f7 := { f6 with error := none }
          let rb := rollbackFlow ds1 slot f7 n2s.trace
          { ret := -1
            ds := rb.1
            req := req2
            trace := rb.2 }
        | none =>
          if env.hasTcpCongestion && !env.ccOk then
            let rb := rollbackFlow ds1 slot f5 n2s.trace
            { ret := -1
              ds := rb.1
              req := { req1 with r_error := some (ErrMsg.ccFail env.ccErr) }
              trace := rb.2 }
          else
            let req3 :=
              if env.hasTcpCongestion then { req1 with cc_alg := env.ccAlg } else req1
            let tr1 := n2s.trace ++ (if env.hasPcap then [Event.evPcap] else [])
            -- the flow's late_connect flag is the request's, copied by value
            let r2 :=
              if req.source_settings.late_connect = false then
                ({ f5 with connect_called := true, pmtu := env.pmtu },
                 tr1 ++ [Event.evConnect (n2s.retFd.getD 0)])
              else (f5, tr1)
            let req4 := { req3 with flow_id := r2.1.id }
            { ret := 0
              ds := { ds1 with flows := ds1.flows.set slot r2.1 }
              req := req4
              trace := r2.2 }

/-- Recognizer for `connect()` events. -/
def isConnectEv : Event → Bool
  | Event.evConnect _ => true
  | _ => false

/-- Recognizer for `close()` events. -/
def isCloseEv : Event → Bool
  | Event.evClose _ => true
  | _ => false

/-- Recognizer for `uninit_flow` teardown events. -/
def isUninitEv : Event → Bool
  | Event.evUninit _ => true
  | _ => false

/-- In trace `tr`, every `connect()` on a descriptor is preceded by a
`set_window_size_directed` call in direction `d` on the same descriptor. -/
def preparedBefore (d : Dir) (tr : List Event) : Prop :=
  ∀ (j fd : ℕ), tr[j]? = some (Event.evConnect fd) →
    ∃ (i : ℕ) (r e : Int), i < j ∧ tr[i]? = some (Event.evSetWin fd d r e)

lemma take_set_self {α : Type} (l : List α) (n : ℕ) (a : α) :
    (l.set n a).take n = l.take n := by
  rw [List.set_take, List.set_eq_of_length_le]
  exact le_trans (List.length_take_le n l) (le_refl n)

lemma preparedBefore_of_no_connect {d : Dir} {tr : List Event}
    (h : ∀ fd, Event.evConnect fd ∉ tr) : preparedBefore d tr := by
  intro j fd hj
  exact absurd (List.getElem?_mem hj) (h fd)

lemma preparedBefore_append {d : Dir} {t1 t2 : List Event}
    (h1 : preparedBefore d t1) (h2 : preparedBefore d t2) :
    preparedBefore d (t1 ++ t2) := by
  intro j fd hj
  by_cases hlt : j < t1.length
  · rw [List.getElem?_append_left hlt] at hj
    obtain ⟨i, r, e, hij, hi⟩ := h1 j fd hj
    exact ⟨i, r, e, hij, by rw [List.getElem?_append_left (lt_trans hij hlt)]; exact hi⟩
  · push_neg at hlt
    rw [List.getElem?_append_right hlt] at hj
    obtain ⟨i, r, e, hij, hi⟩ := h2 (j - t1.length) fd hj
    refine ⟨t1.length + i, r, e, ?_, ?_⟩
    · omega
    · rw [List.getElem?_append_right (Nat.le_add_right _ _)]
      simpa using hi

lemma preparedBefore_block {d : Dir} {fd : Nat} {ws tail : List Event}
    (hw : ∀ f, Event.evConnect f ∉ ws) (htail : ∀ f, Event.evConnect f ∉ tail)
    (hex : ∃ r e, Event.evSetWin fd d r e ∈ ws) :
    preparedBefore d (Event.evSocket fd :: ws ++ Event.evConnect fd :: tail) := by
  intro j fd2 hj
  obtain ⟨r, e, hmem⟩ := hex
  obtain ⟨k, hk⟩ := List.getElem?_of_mem hmem
  have hklen : k < ws.length := by
    have := List.getElem?_eq_some_iff.mp hk
    exact this.1
  -- the connect found at j can only be the one after ws, at index ws.length + 1
  have hloc : fd2 = fd ∧ ws.length < j := by
    by_cases hlt : j < (Event.evSocket fd :: ws).length
    · rw [List.getElem?_append_left hlt] at hj
      match j, hj with
      | 0, hj => exact absurd hj (by simp [List.getElem?_cons_zero])
      | j' + 1, hj =>
        simp only [List.getElem?_cons_succ] at hj
        exact absurd (List.getElem?_mem hj) (hw fd2)
    · push_neg at hlt
      rw [List.getElem?_append_right hlt] at hj
      simp only [List.length_cons] at hlt
      cases hsub : j - (Event.evSocket fd :: ws).length with
      | zero =>
        rw [hsub] at hj
        simp only [List.getElem?_cons_zero, Option.some.injEq, Event.evConnect.injEq] at hj
        exact ⟨hj.symm, by omega⟩
      | succ m =>
        rw [hsub] at hj
        simp only [List.getElem?_cons_succ] at hj
        exact absurd (List.getElem?_mem hj) (htail fd2)
  refine ⟨k + 1, r, e, by omega, ?_⟩
  rw [hloc.1]
  have hk1 : k + 1 < (Event.evSocket fd :: ws).length := by
    simp only [List.length_cons]
    omega
  rw [List.getElem?_append_left hk1]
  simp only [List.getElem?_cons_succ]
  exact hk

lemma winEvents_no_connect (sndPtr rcvPtr : Bool) (sndReq rcvReq : Int)
    (c : Candidate) (fd f : Nat) :
    Event.evConnect f ∉ winEvents sndPtr rcvPtr sndReq rcvReq c fd := by
  unfold winEvents
  cases sndPtr <;> cases rcvPtr <;> simp

lemma candLoop_no_connect (sndPtr rcvPtr : Bool) (sndReq rcvReq : Int)
    (cands : List Candidate) (st : LoopSt) (fd : Nat) :
    Event.evConnect fd ∉ (candLoop false sndPtr rcvPtr sndReq rcvReq cands st).2.2 := by
  induction cands generalizing st with
  | nil => simp [candLoop]
  | cons c rest ih =>
    cases hc : c.sockFd with
    | none => simpa [candLoop, hc] using ih _
    | some fdc =>
      simp only [candLoop, hc, Bool.false_eq_true, if_false]
      intro hmem
      rcases List.mem_cons.mp hmem with h | h
      · exact absurd h.symm (by simp)
      · exact winEvents_no_connect _ _ _ _ _ _ _ h

lemma candLoop_result_name (sndPtr rcvPtr : Bool) (sndReq rcvReq : Int)
    (cands : List Candidate) (st : LoopSt) (c : Candidate)
    (hres : (candLoop true sndPtr rcvPtr sndReq rcvReq cands st).1 = some c) :
    (candLoop true sndPtr rcvPtr sndReq rcvReq cands st).2.1.name
      = rewriteName c st.name ∧ c.connOk = true := by
  induction cands generalizing st with
  | nil => simp [candLoop] at hres
  | cons c0 rest ih =>
    cases hc : c0.sockFd with
    | none =>
      simp only [candLoop, hc] at hres ⊢
      exact ih _ hres
    | some fdc =>
      cases hconn : c0.connOk with
      | true =>
        simp only [candLoop, hc, hconn, if_true] at hres ⊢
        cases hres
        exact ⟨rfl, hconn⟩
      | false =>
        simp only [candLoop, hc, hconn, Bool.false_eq_true, if_false, if_true] at hres ⊢
        exact ih _ hres

lemma winEvents_setwin_mem (rcvPtr : Bool) (sndReq rcvReq : Int) (c : Candidate) (fd : Nat) :
    Event.evSetWin fd Dir.sndDir sndReq c.effSnd ∈ winEvents true rcvPtr sndReq rcvReq c fd := by
  cases rcvPtr <;> simp [winEvents]

lemma winEvents_setwin_mem_rcv (sndPtr : Bool) (sndReq rcvReq : Int) (c : Candidate) (fd : Nat) :
    Event.evSetWin fd Dir.rcvDir rcvReq c.effRcv ∈ winEvents sndPtr true sndReq rcvReq c fd := by
  cases sndPtr <;> simp [winEvents]

lemma candLoop_prepared (d : Dir) (doConnect sndPtr rcvPtr : Bool) (sndReq rcvReq : Int)
    (cands : List Candidate) (st : LoopSt)
    (hwin : ∀ c (fd : ℕ), ∃ r e,
      Event.evSetWin fd d r e ∈ winEvents sndPtr rcvPtr sndReq rcvReq c fd) :
    preparedBefore d (candLoop doConnect sndPtr rcvPtr sndReq rcvReq cands st).2.2 := by
  induction cands generalizing st with
  | nil =>
    simp only [candLoop]
    exact preparedBefore_of_no_connect (by simp)
  | cons c rest ih =>
    cases hc : c.sockFd with
    | none =>
      simp only [candLoop, hc]
      exact ih _
    | some fdc =>
      cases doConnect with
      | false =>
        simp only [candLoop, hc, Bool.false_eq_true, if_false]
        refine preparedBefore_of_no_connect ?_
        intro f hmem
        rcases List.mem_cons.mp hmem with h | h
        · exact absurd h.symm (by simp)
        · exact winEvents_no_connect _ _ _ _ _ _ _ h
      | true =>
        cases hconn : c.connOk with
        | true =>
          simp only [candLoop, hc, hconn, if_true]
          exact preparedBefore_block
            (fun f => winEvents_no_connect _ _ _ _ _ _ f) (by simp) (hwin c fdc)
        | false =>
          simp only [candLoop, hc, hconn, Bool.false_eq_true, if_false, if_true]
          refine preparedBefore_append (preparedBefore_block
            (fun f => winEvents_no_connect _ _ _ _ _ _ f) ?_ (hwin c fdc)) (ih _)
          intro f
          simp

lemma filter_winEvents_connect (sndPtr rcvPtr : Bool) (sndReq rcvReq : Int)
    (c : Candidate) (fd : Nat) :
    (winEvents sndPtr rcvPtr sndReq rcvReq c fd).filter isConnectEv = [] := by
  cases sndPtr <;> cases rcvPtr <;> simp [winEvents, isConnectEv]

lemma filter_winEvents_close (sndPtr rcvPtr : Bool) (sndReq rcvReq : Int)
    (c : Candidate) (fd : Nat) :
    (winEvents sndPtr rcvPtr sndReq rcvReq c fd).filter isCloseEv = [] := by
  cases sndPtr <;> cases rcvPtr <;> simp [winEvents, isCloseEv]

lemma candLoop_exhaust (sndPtr rcvPtr : Bool) (sndReq rcvReq : Int)
    (cands : List Candidate) (st : LoopSt)
    (hall : ∀ c ∈ cands, c.sockFd.isSome = true ∧ c.connOk = false) :
    (candLoop true sndPtr rcvPtr sndReq rcvReq cands st).1 = none ∧
    (candLoop true sndPtr rcvPtr sndReq rcvReq cands st).2.2.filter isConnectEv
      = cands.map (fun c => Event.evConnect (c.sockFd.getD 0)) ∧
    (candLoop true sndPtr rcvPtr sndReq rcvReq cands st).2.2.filter isCloseEv
      = cands.map (fun c => Event.evClose (c.sockFd.getD 0)) ∧
    (candLoop true sndPtr rcvPtr sndReq rcvReq cands st).2.1.name = st.name ∧
    (∀ cl, cands.getLast? = some cl →
      (candLoop true sndPtr rcvPtr sndReq rcvReq cands st).2.1.errno = cl.connErr) := by
  induction cands generalizing st with
  | nil =>
    refine ⟨rfl, rfl, rfl, rfl, ?_⟩
    intro cl hcl
    simp at hcl
  | cons c rest ih =>
    obtain ⟨hsome, hconn⟩ := hall c (List.mem_cons_self c rest)
    obtain ⟨fdc, hc⟩ := Option.isSome_iff_exists.mp hsome
    have hrest : ∀ c2 ∈ rest, c2.sockFd.isSome = true ∧ c2.connOk = false :=
      fun c2 h2 => hall c2 (List.mem_cons_of_mem c h2)
    obtain ⟨ih1, ih2, ih3, ih4, ih5⟩ := ih
      { st with
        sndOut := if sndPtr = true then some c.effSnd else st.sndOut
        rcvOut := if rcvPtr = true then some c.effRcv else st.rcvOut
        errno := c.connErr } hrest
    simp only [candLoop, hc, hconn, Bool.false_eq_true, if_false, if_true]
    refine ⟨ih1, ?_, ?_, ih4, ?_⟩
    · simp only [List.filter_append, List.filter_cons, filter_winEvents_connect,
        isConnectEv, List.map_cons, hc]
      simpa [isConnectEv] using ih2
    · simp only [List.filter_append, List.filter_cons, filter_winEvents_close,
        isCloseEv, List.map_cons, hc]
      simpa [isCloseEv] using ih3
    · intro cl hcl
      cases rest with
      | nil =>
        simp only [List.getLast?_cons, List.getLast?_nil, Option.getD_none] at hcl
        cases hcl
        simp [candLoop]
      | cons c2 rest2 =>
        rw [List.getLast?_cons_cons] at hcl
        exact ih5 cl hcl

lemma candLoop_result_outs (doConnect sndPtr rcvPtr : Bool) (sndReq rcvReq : Int)
    (cands : List Candidate) (st : LoopSt) (c : Candidate)
    (hres : (candLoop doConnect sndPtr rcvPtr sndReq rcvReq cands st).1 = some c) :
    (sndPtr = true →
      (candLoop doConnect sndPtr rcvPtr sndReq rcvReq cands st).2.1.sndOut = some c.effSnd) ∧
    (rcvPtr = true →
      (candLoop doConnect sndPtr rcvPtr sndReq rcvReq cands st).2.1.rcvOut = some c.effRcv) := by
  induction cands generalizing st with
  | nil => simp [candLoop] at hres
  | cons c0 rest ih =>
    cases hc : c0.sockFd with
    | none =>
      simp only [candLoop, hc] at hres ⊢
      exact ih _ hres
    | some fdc =>
      cases doConnect with
      | false =>
        simp only [candLoop, hc, Bool.false_eq_true, if_false] at hres ⊢
        cases hres
        constructor <;> intro hp <;> simp [hp]
      | true =>
        cases hconn : c0.connOk with
        | true =>
          simp only [candLoop, hc, hconn, if_true] at hres ⊢
          cases hres
          constructor <;> intro hp <;> simp [hp]
        | false =>
          simp only [candLoop, hc, hconn, Bool.false_eq_true, if_false, if_true] at hres ⊢
          exact ih _ hres

lemma rewriteName_spec (c : Candidate) (name : List Nat)
    (hfam : c.family = PF_INET ∨ c.family = PF_INET6)
    (hlen : name.length = 256) (htxt : c.numericText.length ≤ 45) :
    (rewriteName c name).take c.numericText.length = c.numericText ∧
    (rewriteName c name)[c.numericText.length]? = some 0 ∧
    (rewriteName c name).length = 256 := by
  rcases hfam with h4 | h6
  · have hdrop : name.drop 256 = [] := by
      rw [List.drop_eq_nil_iff]
      omega
    have hbuf : strncpyBuf name c.numericText 256
        = c.numericText ++ List.replicate (256 - c.numericText.length) 0 := by
      rw [strncpyBuf, List.take_of_length_le (by omega), hdrop, List.append_nil]
    refine ⟨?_, ?_, ?_⟩
    · rw [rewriteName, if_pos h4, List.set_take, List.set_eq_of_length_le, hbuf]
      · rw [List.take_append_eq_append_take, List.take_of_length_le (le_refl _),
          Nat.sub_self]
        simp
      · exact le_trans (List.length_take_le _ _) (by omega)
    · rw [rewriteName, if_pos h4,
        List.getElem?_set_ne (by omega : (255 : ℕ) ≠ c.numericText.length), hbuf,
        List.getElem?_append_right (le_refl _), Nat.sub_self]
      rw [List.getElem?_replicate]
      rw [if_pos (by omega)]
    · rw [rewriteName, if_pos h4, List.length_set, hbuf]
      simp only [List.length_append, List.length_replicate]
      omega
  · have h46 : ¬ c.family = PF_INET := by
      rw [h6]
      decide
    refine ⟨?_, ?_, ?_⟩
    · rw [rewriteName, if_neg h46, if_pos h6, ntopBuf,
        List.take_append_eq_append_take, List.take_append_eq_append_take,
        List.take_of_length_le (le_refl _), Nat.sub_self]
      simp
    · rw [rewriteName, if_neg h46, if_pos h6, ntopBuf,
        List.getElem?_append_left (by simp),
        List.getElem?_append_right (le_refl _), Nat.sub_self]
      simp
    · rw [rewriteName, if_neg h46, if_pos h6, ntopBuf]
      simp only [List.length_append, List.length_cons, List.length_nil, List.length_drop]
      omega

/-- Concrete IPv4 candidate ("127.0.0.1") whose connect succeeds, used to
instantiate theorems with hypotheses. -/
def wCand : Candidate :=
  { family := PF_INET
    sockFd := some 7
    sockErr := "EMFILE"
    effSnd := 131072
    effRcv := 262144
    connOk := true
    connErr := "Connection refused"
    numericText := [49, 50, 55, 46, 48, 46, 48, 46, 49]
    addrLen := 16 }

/-- Concrete candidate that refuses connection. -/
def wCandRefuseA : Candidate :=
  { wCand with connOk := false, connErr := "Connection refused" }

/-- Second concrete refusing candidate, on a different descriptor with a
different system error. -/
def wCandRefuseB : Candidate :=
  { wCand with sockFd := some 8, connOk := false, connErr := "Connection timed out" }

/-- Resolver environment with one connectable candidate. -/
def wResolveOk : ResolveEnv :=
  { gaiOk := true, gaiErr := "", candidates := [wCand], errno0 := "Success" }

/-- Resolver environment where every candidate refuses connection. -/
def wResolveRefuse : ResolveEnv :=
  { gaiOk := true, gaiErr := "", candidates := [wCandRefuseA, wCandRefuseB],
    errno0 := "Success" }

/-- A concrete 256-byte host buffer. -/
def wName : List Nat := List.replicate 256 104

/-- Concrete transfer settings with byte counting on. -/
def wSettings : Settings :=
  { maximum_block_size := 300
    requested_read_buffer_size := 4096
    requested_send_buffer_size := 8192
    byte_counting := true }

/-- Concrete source settings with eager (non-late) connect. -/
def wSource : SourceSettings :=
  { destination_host := wName, destination_port := 5999, late_connect := false }

/-- Concrete admission request. -/
def wRequest : Request :=
  { settings := wSettings
    source_settings := wSource
    r_error := none
    flow_id := 77
    real_read_buffer_size := -1
    real_send_buffer_size := -1
    cc_alg := "" }

/-- Concrete admission environment in which every step succeeds. -/
def wEnv : AfsEnv :=
  { callocWriteOk := true
    callocReadOk := true
    resolve := wResolveOk
    tcpOptsErr := none
    hasTcpCongestion := true
    ccOk := true
    ccAlg := "reno"
    ccErr := ""
    hasPcap := true
    eagerConnectOk := true
    pmtu := 1500 }

/-- Concrete daemon state with room for flows. -/
def wDs : DaemonState :=
  { num_flows := 0, flows := [init_flow 0, init_flow 0], next_flow_id := 5 }

/-- C5: for every `name2socket` call with `do_connect` set, if the host
resolves and every candidate's socket is created but refuses connection,
then exactly one connect attempt is made per candidate, in resolver
order, each failed candidate's socket is closed, and the call fails
reporting a connection error carrying the last candidate's system error
text. -/
theorem name2socket_exhausts_candidates (env : ResolveEnv) (saPtr rcvPtr sndPtr : Bool)
    (rcvReq sndReq : Int) (port : Nat) (name : List Nat) (clast : Candidate)
    (hgai : env.gaiOk = true)
    (hall : ∀ c ∈ env.candidates, c.sockFd.isSome = true ∧ c.connOk = false)
    (hlast : env.candidates.getLast? = some clast) :
    (name2socket env true saPtr rcvPtr sndPtr rcvReq sndReq port name).retFd = none ∧
    (name2socket env true saPtr rcvPtr sndPtr rcvReq sndReq port name).trace.filter
      isConnectEv = env.candidates.map (fun c => Event.evConnect (c.sockFd.getD 0)) ∧
    (name2socket env true saPtr rcvPtr sndPtr rcvReq sndReq port name).trace.filter
      isCloseEv = env.candidates.map (fun c => Event.evClose (c.sockFd.getD 0)) ∧
    (name2socket env true saPtr rcvPtr sndPtr rcvReq sndReq port name).flowErr
      = some (ErrMsg.connFail name port clast.connErr) := by
  have h := candLoop_exhaust sndPtr rcvPtr sndReq rcvReq env.candidates
    { name := name, errno := env.errno0, sndOut := none, rcvOut := none } hall
  simp only [name2socket, hgai, Bool.true_eq_false, if_false, h.1]
  exact ⟨trivial, h.2.1, h.2.2.1, by rw [h.2.2.2.1, h.2.2.2.2 clast hlast]⟩

/-- C5 witness at a concrete environment with two refusing candidates. -/
theorem name2socket_exhausts_candidates_witness :
    (name2socket wResolveRefuse true true true true 4096 8192 5999 wName).retFd = none ∧
    (name2socket wResolveRefuse true true true true 4096 8192 5999 wName).trace.filter
      isConnectEv
      = wResolveRefuse.candidates.map (fun c => Event.evConnect (c.sockFd.getD 0)) ∧
    (name2socket wResolveRefuse true true true true 4096 8192 5999 wName).trace.filter
      isCloseEv
      = wResolveRefuse.candidates.map (fun c => Event.evClose (c.sockFd.getD 0)) ∧
    (name2socket wResolveRefuse true true true true 4096 8192 5999 wName).flowErr
      = some (ErrMsg.connFail wName 5999 wCandRefuseB.connErr) :=
  name2socket_exhausts_candidates wResolveRefuse true true true 4096 8192 5999 wName
    wCandRefuseB rfl (by decide) rfl

/-- C7: in `name2socket`, on every candidate whose socket is created, the
send- and receive-buffer adjustments are applied before any connect call
on that socket (each direction whenever its output pointer is non-null),
and the kernel-effective sizes are written to the caller's output
parameters: when the call settles on a candidate, each non-null output
parameter holds that candidate's kernel-effective size. -/
theorem name2socket_window_sizing (env : ResolveEnv) (doConnect saPtr rcvPtr sndPtr : Bool)
    (rcvReq sndReq : Int) (port : Nat) (name : List Nat) :
    (sndPtr = true → preparedBefore Dir.sndDir
      (name2socket env doConnect saPtr rcvPtr sndPtr rcvReq sndReq port name).trace) ∧
    (rcvPtr = true → preparedBefore Dir.rcvDir
      (name2socket env doConnect saPtr rcvPtr sndPtr rcvReq sndReq port name).trace) ∧
    (∀ c, (name2socket env doConnect saPtr rcvPtr sndPtr rcvReq sndReq port name).chosen
        = some c →
      (sndPtr = true →
        (name2socket env doConnect saPtr rcvPtr sndPtr rcvReq sndReq port name).sndOut
          = some c.effSnd) ∧
      (rcvPtr = true →
        (name2socket env doConnect saPtr rcvPtr sndPtr rcvReq sndReq port name).rcvOut
          = some c.effRcv)) := by
  cases hgai : env.gaiOk with
  | false =>
    simp only [name2socket, hgai, if_true]
    refine ⟨fun _ => preparedBefore_of_no_connect (by simp),
            fun _ => preparedBefore_of_no_connect (by simp), ?_⟩
    intro c hc
    simp at hc
  | true =>
    refine ⟨?_, ?_, ?_⟩
    · intro hs
      subst hs
      simp only [name2socket, hgai, Bool.true_eq_false, if_false]
      cases hr : (candLoop doConnect true rcvPtr sndReq rcvReq env.candidates
          { name := name, errno := env.errno0, sndOut := none, rcvOut := none }).1 with
      | none =>
        simp only [hr]
        exact candLoop_prepared Dir.sndDir doConnect true rcvPtr sndReq rcvReq _ _
          (fun c fd => ⟨sndReq, c.effSnd, winEvents_setwin_mem rcvPtr sndReq rcvReq c fd⟩)
      | some c0 =>
        simp only [hr]
        exact candLoop_prepared Dir.sndDir doConnect true rcvPtr sndReq rcvReq _ _
          (fun c fd => ⟨sndReq, c.effSnd, winEvents_setwin_mem rcvPtr sndReq rcvReq c fd⟩)
    · intro hs
      subst hs
      simp only [name2socket, hgai, Bool.true_eq_false, if_false]
      cases hr : (candLoop doConnect sndPtr true sndReq rcvReq env.candidates
          { name := name, errno := env.errno0, sndOut := none, rcvOut := none }).1 with
      | none =>
        simp only [hr]
        exact candLoop_prepared Dir.rcvDir doConnect sndPtr true sndReq rcvReq _ _
          (fun c fd => ⟨rcvReq, c.effRcv, winEvents_setwin_mem_rcv sndPtr sndReq rcvReq c fd⟩)
      | some c0 =>
        simp only [hr]
        exact candLoop_prepared Dir.rcvDir doConnect sndPtr true sndReq rcvReq _ _
          (fun c fd => ⟨rcvReq, c.effRcv, winEvents_setwin_mem_rcv sndPtr sndReq rcvReq c fd⟩)
    · intro c hc
      simp only [name2socket, hgai, Bool.true_eq_false, if_false] at hc ⊢
      cases hr : (candLoop doConnect sndPtr rcvPtr sndReq rcvReq env.candidates
          { name := name, errno := env.errno0, sndOut := none, rcvOut := none }).1 with
      | none =>
        rw [hr] at hc
        simp at hc
      | some c0 =>
        rw [hr] at hc
        simp only [N2SOut.mk.injEq] at hc
        have hc0 : c0 = c := by
          have := hc
          simp at this
          exact this
        subst hc0
        have houts := candLoop_result_outs doConnect sndPtr rcvPtr sndReq rcvReq
          env.candidates _ c0 hr
        simp only [hr]
        exact houts

/-- C7 witness at a concrete environment with one connectable candidate. -/
theorem name2socket_window_sizing_witness :
    preparedBefore Dir.sndDir
      (name2socket wResolveOk true true true true 4096 8192 5999 wName).trace ∧
    preparedBefore Dir.rcvDir
      (name2socket wResolveOk true true true true 4096 8192 5999 wName).trace ∧
    (name2socket wResolveOk true true true true 4096 8192 5999 wName).sndOut
      = some 131072 ∧
    (name2socket wResolveOk true true true true 4096 8192 5999 wName).rcvOut
      = some 262144 := by
  have h := name2socket_window_sizing wResolveOk true true true true 4096 8192 5999 wName
  exact ⟨h.1 rfl, h.2.1 rfl, (h.2.2 wCand rfl).1 rfl, (h.2.2 wCand rfl).2 rfl⟩

/-- C8: for every `name2socket` call with `do_connect` set, when the call
settles on a candidate (its connect attempt succeeded) of family IPv4 or
IPv6, the caller-supplied host string is overwritten in place with the
candidate's canonical numeric textual form, NUL-terminated within the
256-byte buffer. -/
theorem name2socket_canonical_host (env : ResolveEnv) (saPtr rcvPtr sndPtr : Bool)
    (rcvReq sndReq : Int) (port : Nat) (name : List Nat) (c : Candidate)
    (hchosen : (name2socket env true saPtr rcvPtr sndPtr rcvReq sndReq port name).chosen
      = some c)
    (hfam : c.family = PF_INET ∨ c.family = PF_INET6)
    (hlen : name.length = 256)
    (htxt : c.numericText.length ≤ 45) :
    (name2socket env true saPtr rcvPtr sndPtr rcvReq sndReq port name).name.take
      c.numericText.length = c.numericText ∧
    (name2socket env true saPtr rcvPtr sndPtr rcvReq sndReq port
      name).name[c.numericText.length]? = some 0 ∧
    (name2socket env true saPtr rcvPtr sndPtr rcvReq sndReq port name).name.length
      = 256 := by
  cases hgai : env.gaiOk with
  | false =>
    simp [name2socket, hgai] at hchosen
  | true =>
    simp only [name2socket, hgai, Bool.true_eq_false, if_false] at hchosen ⊢
    cases hr : (candLoop true sndPtr rcvPtr sndReq rcvReq env.candidates
        { name := name, errno := env.errno0, sndOut := none, rcvOut := none }).1 with
    | none =>
      rw [hr] at hchosen
      simp at hchosen
    | some c0 =>
      rw [hr] at hchosen
      have hc0 : c0 = c := by
        simp at hchosen
        exact hchosen
      subst hc0
      have hname := candLoop_result_name sndPtr rcvPtr sndReq rcvReq env.candidates
        { name := name, errno := env.errno0, sndOut := none, rcvOut := none } c0 hr
      simp only [hr, hname.1]
      exact rewriteName_spec c0 name hfam hlen htxt

/-- C8 witness at a concrete environment whose IPv4 candidate connects. -/
theorem name2socket_canonical_host_witness :
    (name2socket wResolveOk true true true true 4096 8192 5999 wName).name.take
      wCand.numericText.length = wCand.numericText ∧
    (name2socket wResolveOk true true true true 4096 8192 5999
      wName).name[wCand.numericText.length]? = some 0 ∧
    (name2socket wResolveOk true true true true 4096 8192 5999 wName).name.length
      = 256 :=
  name2socket_canonical_host wResolveOk true true true 4096 8192 5999 wName wCand
    rfl (Or.inl rfl) (by rw [wName, List.length_replicate]) (by decide)

lemma name2socket_false_no_connect (env : ResolveEnv) (saPtr rcvPtr sndPtr : Bool)
    (rcvReq sndReq : Int) (port : Nat) (name : List Nat) (fd : Nat) :
    Event.evConnect fd ∉
      (name2socket env false saPtr rcvPtr sndPtr rcvReq sndReq port name).trace := by
  cases hgai : env.gaiOk with
  | false => simp [name2socket, hgai]
  | true =>
    simp only [name2socket, hgai, Bool.true_eq_false, if_false]
    cases hr : (candLoop false sndPtr rcvPtr sndReq rcvReq env.candidates
        { name := name, errno := env.errno0, sndOut := none, rcvOut := none }).1 with
    | none =>
      simp only [hr]
      exact candLoop_no_connect sndPtr rcvPtr sndReq rcvReq env.candidates _ fd
    | some c0 =>
      simp only [hr]
      exact candLoop_no_connect sndPtr rcvPtr sndReq rcvReq env.candidates _ fd

lemma name2socket_success_no_error (env : ResolveEnv) (doConnect saPtr rcvPtr sndPtr : Bool)
    (rcvReq sndReq : Int) (port : Nat) (name : List Nat) (fdv : Nat)
    (hfd : (name2socket env doConnect saPtr rcvPtr sndPtr rcvReq sndReq port name).retFd
      = some fdv) :
    (name2socket env doConnect saPtr rcvPtr sndPtr rcvReq sndReq port name).flowErr
      = none := by
  cases hgai : env.gaiOk with
  | false => simp [name2socket, hgai] at hfd
  | true =>
    simp only [name2socket, hgai, Bool.true_eq_false, if_false] at hfd ⊢
    cases hr : (candLoop doConnect sndPtr rcvPtr sndReq rcvReq env.candidates
        { name := name, errno := env.errno0, sndOut := none, rcvOut := none }).1 with
    | none =>
      rw [hr] at hfd
      exact Option.noConfusion hfd
    | some c0 =>
      rfl

/-- C1: whenever `add_flow_source` returns -1 after the registry slot was
reserved (the registry was not at capacity on entry), the flow count
after the call equals its value before the call, the registry's live
prefix is unchanged, and the partially built flow was torn down via
`uninit_flow`. -/
theorem add_flow_source_failure_rollback (maxFlows : Nat) (env : AfsEnv)
    (ds : DaemonState) (req : Request)
    (hcap : ds.num_flows < maxFlows)
    (hret : (add_flow_source maxFlows env ds req).ret = -1) :
    (add_flow_source maxFlows env ds req).ds.num_flows = ds.num_flows ∧
    (add_flow_source maxFlows env ds req).ds.flows.take ds.num_flows
      = ds.flows.take ds.num_flows ∧
    (add_flow_source maxFlows env ds req).trace.any isUninitEv = true := by
  have hcap2 : ¬ (maxFlows ≤ ds.num_flows) := Nat.not_le.mpr hcap
  revert hret
  simp only [add_flow_source, if_neg hcap2]
  split
  · intro _
    exact ⟨by simp [rollbackFlow], by simp [rollbackFlow, take_set_self],
      by simp [rollbackFlow, uninit_flow, isUninitEv]⟩
  · split
    · intro _
      exact ⟨by simp [rollbackFlow], by simp [rollbackFlow, take_set_self],
        by simp [rollbackFlow, uninit_flow, isUninitEv]⟩
    · split
      · intro _
        exact ⟨by simp [rollbackFlow], by simp [rollbackFlow, take_set_self],
          by simp [rollbackFlow, uninit_flow, isUninitEv]⟩
      · split
        · intro _
          exact ⟨by simp [rollbackFlow], by simp [rollbackFlow, take_set_self],
            by simp [rollbackFlow, uninit_flow, isUninitEv]⟩
        · intro h
          exact absurd h (by simp)

/-- Environment in which the write-buffer allocation fails, used to
instantiate failure-path theorems. -/
def wEnvAllocFail : AfsEnv := { wEnv with callocWriteOk := false }

/-- C1 witness: a concrete failing admission (write-buffer allocation
fails) restores the flow count, preserves the live prefix, and tears the
flow down. -/
theorem add_flow_source_failure_rollback_witness :
    (add_flow_source 4 wEnvAllocFail wDs wRequest).ds.num_flows = wDs.num_flows ∧
    (add_flow_source 4 wEnvAllocFail wDs wRequest).ds.flows.take wDs.num_flows
      = wDs.flows.take wDs.num_flows ∧
    (add_flow_source 4 wEnvAllocFail wDs wRequest).trace.any isUninitEv = true :=
  add_flow_source_failure_rollback 4 wEnvAllocFail wDs wRequest (by decide) (by decide)

/-- C2: when the registry is already at capacity, `add_flow_source`
returns -1 with the structured capacity error and mutates nothing: the
daemon state (count and flow table) and the request's response fields
(`flow_id`, the real buffer sizes) are unchanged. -/
theorem add_flow_source_capacity (maxFlows : Nat) (env : AfsEnv) (ds : DaemonState)
    (req : Request) (hcap : maxFlows ≤ ds.num_flows) :
    (add_flow_source maxFlows env ds req).ret = -1 ∧
    (add_flow_source maxFlows env ds req).ds = ds ∧
    (add_flow_source maxFlows env ds req).req.flow_id = req.flow_id ∧
    (add_flow_source maxFlows env ds req).req.real_read_buffer_size
      = req.real_read_buffer_size ∧
    (add_flow_source maxFlows env ds req).req.real_send_buffer_size
      = req.real_send_buffer_size ∧
    (add_flow_source maxFlows env ds req).req.r_error
      = some ErrMsg.capacityExceeded := by
  simp [add_flow_source, if_pos hcap]

/-- Daemon state already holding its single admitted flow. -/
def wDsFull : DaemonState :=
  { num_flows := 1, flows := [init_flow 0], next_flow_id := 1 }

/-- C2 witness: a concrete at-capacity admission attempt is rejected with
no mutation. -/
theorem add_flow_source_capacity_witness :
    (add_flow_source 1 wEnv wDsFull wRequest).ret = -1 ∧
    (add_flow_source 1 wEnv wDsFull wRequest).ds = wDsFull ∧
    (add_flow_source 1 wEnv wDsFull wRequest).req.flow_id = wRequest.flow_id ∧
    (add_flow_source 1 wEnv wDsFull wRequest).req.real_read_buffer_size
      = wRequest.real_read_buffer_size ∧
    (add_flow_source 1 wEnv wDsFull wRequest).req.real_send_buffer_size
      = wRequest.real_send_buffer_size ∧
    (add_flow_source 1 wEnv wDsFull wRequest).req.r_error
      = some ErrMsg.capacityExceeded :=
  add_flow_source_capacity 1 wEnv wDsFull wRequest (by decide)

/-- Environment in which every setup step succeeds but the eager connect
system call itself fails. -/
def wEnvEagerFail : AfsEnv := { wEnv with eagerConnectOk := false }

/-- C3 counterexample: with late connect disabled and the eager connect
system call failing, `add_flow_source` still returns success (0) and no
error is attached to the flow — the source discards the `connect` return
value (source.c line 224), so the claim that admission fails on eager
connect failure is false. -/
theorem add_flow_source_eager_failure_cex :
    wEnvEagerFail.eagerConnectOk = false ∧
    wRequest.source_settings.late_connect = false ∧
    (add_flow_source 4 wEnvEagerFail wDs wRequest).ret = 0 ∧
    ((add_flow_source 4 wEnvEagerFail wDs wRequest).ds.flows[0]?).map Flow.error
      = some none := by
  refine ⟨rfl, rfl, by decide, by decide⟩

/-- C3 amended: with late connect disabled and every prior setup step
succeeding, `add_flow_source` issues the eager connect call, marks
`connect_called`, records the discovered path MTU, and returns success
regardless of the connect call's outcome, attaching no error to the
flow. -/
theorem add_flow_source_eager_connect (maxFlows : Nat) (env : AfsEnv)
    (ds : DaemonState) (req : Request) (fdv : Nat)
    (hcap : ds.num_flows < maxFlows)
    (hw : env.callocWriteOk = true) (hr : env.callocReadOk = true)
    (hn2s : (name2socket env.resolve false true true true
        req.settings.requested_read_buffer_size req.settings.requested_send_buffer_size
        req.source_settings.destination_port
        req.source_settings.destination_host).retFd = some fdv)
    (hopt : env.tcpOptsErr = none)
    (hcc : env.hasTcpCongestion = false ∨ env.ccOk = true)
    (hlen : ds.num_flows < ds.flows.length)
    (hlc : req.source_settings.late_connect = false) :
    (add_flow_source maxFlows env ds req).ret = 0 ∧
    Event.evConnect fdv ∈ (add_flow_source maxFlows env ds req).trace ∧
    ((add_flow_source maxFlows env ds req).ds.flows[ds.num_flows]?).map
      Flow.connect_called = some true ∧
    ((add_flow_source maxFlows env ds req).ds.flows[ds.num_flows]?).map Flow.pmtu
      = some env.pmtu ∧
    ((add_flow_source maxFlows env ds req).ds.flows[ds.num_flows]?).map Flow.error
      = some none := by
  have hcap2 : ¬ (maxFlows ≤ ds.num_flows) := Nat.not_le.mpr hcap
  have hfe := name2socket_success_no_error env.resolve false true true true
    req.settings.requested_read_buffer_size req.settings.requested_send_buffer_size
    req.source_settings.destination_port req.source_settings.destination_host fdv hn2s
  refine ⟨?_, ?_, ?_, ?_, ?_⟩ <;>
  · rcases hcc with hcc | hcc <;>
    cases hbc : req.settings.byte_counting <;>
    cases hpc : env.hasPcap <;>
    simp [add_flow_source, if_neg hcap2, hw, hr, callocBlock, hopt, hn2s, hbc,
      hlc, hpc, hcc, hfe, List.getElem?_set_self hlen]

/-- C3 amended witness: a concrete admission with a failing eager connect
still succeeds, with `connect_called` set and the MTU recorded. -/
theorem add_flow_source_eager_connect_witness :
    (add_flow_source 4 wEnvEagerFail wDs wRequest).ret = 0 ∧
    Event.evConnect 7 ∈ (add_flow_source 4 wEnvEagerFail wDs wRequest).trace ∧
    ((add_flow_source 4 wEnvEagerFail wDs wRequest).ds.flows[wDs.num_flows]?).map
      Flow.connect_called = some true ∧
    ((add_flow_source 4 wEnvEagerFail wDs wRequest).ds.flows[wDs.num_flows]?).map
      Flow.pmtu = some wEnvEagerFail.pmtu ∧
    ((add_flow_source 4 wEnvEagerFail wDs wRequest).ds.flows[wDs.num_flows]?).map
      Flow.error = some none :=
  add_flow_source_eager_connect 4 wEnvEagerFail wDs wRequest 7 (by decide) rfl rfl rfl
    rfl (Or.inr rfl) (by decide) rfl

/-- C4: with byte counting enabled, after the buffer-allocation step of a
(successful) admission, the flow's write buffer is the repeating byte
pattern, whose byte at every offset `i` below the maximum block size is
`i mod 256`. -/
theorem add_flow_source_byte_counting (maxFlows : Nat) (env : AfsEnv)
    (ds : DaemonState) (req : Request) (fdv : Nat) (i : Nat)
    (hcap : ds.num_flows < maxFlows)
    (hw : env.callocWriteOk = true) (hr : env.callocReadOk = true)
    (hbc : req.settings.byte_counting = true)
    (hn2s : (name2socket env.resolve false true true true
        req.settings.requested_read_buffer_size req.settings.requested_send_buffer_size
        req.source_settings.destination_port
        req.source_settings.destination_host).retFd = some fdv)
    (hopt : env.tcpOptsErr = none)
    (hcc : env.hasTcpCongestion = false ∨ env.ccOk = true)
    (hlen : ds.num_flows < ds.flows.length)
    (hi : i < req.settings.maximum_block_size) :
    (add_flow_source maxFlows env ds req).ret = 0 ∧
    ((add_flow_source maxFlows env ds req).ds.flows[ds.num_flows]?).map
      Flow.write_block = some (some (byteCountFill req.settings.maximum_block_size)) ∧
    (byteCountFill req.settings.maximum_block_size)[i]? = some (i % 256) := by
  have hcap2 : ¬ (maxFlows ≤ ds.num_flows) := Nat.not_le.mpr hcap
  have hfill : (byteCountFill req.settings.maximum_block_size)[i]? = some (i % 256) := by
    rw [byteCountFill, List.getElem?_map, List.getElem?_range hi]
    rfl
  refine ⟨?_, ?_, hfill⟩ <;>
  · rcases hcc with hcc | hcc <;>
    cases hlc : req.source_settings.late_connect <;>
    cases hpc : env.hasPcap <;>
    simp [add_flow_source, if_neg hcap2, hw, hr, callocBlock, hopt, hn2s, hbc,
      hlc, hpc, hcc, List.getElem?_set_self hlen]

/-- C4 witness: a concrete successful byte-counting admission; offset 257
of the 300-byte write buffer holds 1 = 257 mod 256. -/
theorem add_flow_source_byte_counting_witness :
    (add_flow_source 4 wEnv wDs wRequest).ret = 0 ∧
    ((add_flow_source 4 wEnv wDs wRequest).ds.flows[wDs.num_flows]?).map
      Flow.write_block
      = some (some (byteCountFill wRequest.settings.maximum_block_size)) ∧
    (byteCountFill wRequest.settings.maximum_block_size)[(257 : ℕ)]?
      = some (257 % 256) :=
  add_flow_source_byte_counting 4 wEnv wDs wRequest 7 257 (by decide) rfl rfl rfl rfl
    rfl (Or.inr rfl) (by decide) (by decide)

/-- C6: with late connect enabled and every setup step succeeding,
admission succeeds, no connect system call appears anywhere in the call's
trace, and the flow's `connect_called` flag is false on return. -/
theorem add_flow_source_late_connect (maxFlows : Nat) (env : AfsEnv)
    (ds : DaemonState) (req : Request) (fdv : Nat)
    (hcap : ds.num_flows < maxFlows)
    (hw : env.callocWriteOk = true) (hr : env.callocReadOk = true)
    (hn2s : (name2socket env.resolve false true true true
        req.settings.requested_read_buffer_size req.settings.requested_send_buffer_size
        req.source_settings.destination_port
        req.source_settings.destination_host).retFd = some fdv)
    (hopt : env.tcpOptsErr = none)
    (hcc : env.hasTcpCongestion = false ∨ env.ccOk = true)
    (hlen : ds.num_flows < ds.flows.length)
    (hlc : req.source_settings.late_connect = true) :
    (add_flow_source maxFlows env ds req).ret = 0 ∧
    (∀ fd, Event.evConnect fd ∉ (add_flow_source maxFlows env ds req).trace) ∧
    ((add_flow_source maxFlows env ds req).ds.flows[ds.num_flows]?).map
      Flow.connect_called = some false := by
  have hcap2 : ¬ (maxFlows ≤ ds.num_flows) := Nat.not_le.mpr hcap
  refine ⟨?_, ?_, ?_⟩
  · rcases hcc with hcc | hcc <;>
    cases hbc : req.settings.byte_counting <;>
    cases hpc : env.hasPcap <;>
    simp [add_flow_source, if_neg hcap2, hw, hr, callocBlock, hopt, hn2s, hbc,
      hlc, hpc, hcc]
  · intro fd
    have hnc := name2socket_false_no_connect env.resolve true true true
      req.settings.requested_read_buffer_size req.settings.requested_send_buffer_size
      req.source_settings.destination_port req.source_settings.destination_host fd
    rcases hcc with hcc | hcc <;>
    cases hbc : req.settings.byte_counting <;>
    cases hpc : env.hasPcap <;>
    simp [add_flow_source, if_neg hcap2, hw, hr, callocBlock, hopt, hn2s, hbc,
      hlc, hpc, hcc, hnc]
  · rcases hcc with hcc | hcc <;>
    cases hbc : req.settings.byte_counting <;>
    cases hpc : env.hasPcap <;>
    simp [add_flow_source, if_neg hcap2, hw, hr, callocBlock, hopt, hn2s, hbc,
      hlc, hpc, hcc, List.getElem?_set_self hlen, init_flow]

/-- Request asking for a late (deferred) connect. -/
def wRequestLate : Request :=
  { wRequest with source_settings := { wSource with late_connect := true } }

/-- C6 witness: a concrete late-connect admission succeeds with no
connect call in its trace and `connect_called` false. -/
theorem add_flow_source_late_connect_witness :
    (add_flow_source 4 wEnv wDs wRequestLate).ret = 0 ∧
    (∀ fd, Event.evConnect fd ∉ (add_flow_source 4 wEnv wDs wRequestLate).trace) ∧
    ((add_flow_source 4 wEnv wDs wRequestLate).ds.flows[wDs.num_flows]?).map
      Flow.connect_called = some false :=
  add_flow_source_late_connect 4 wEnv wDs wRequestLate 7 (by decide) rfl rfl rfl rfl
    (Or.inr rfl) (by decide) rfl

/-- C9: when `set_flow_tcp_options` fails during admission, the flow's
error message is moved into the request's error field, and the flow's own
error field is null by the time `uninit_flow` runs (the teardown event
records that no error message was still owned), so the reported message
is exactly the flow's error. -/
theorem add_flow_source_tcp_options_error_transfer (maxFlows : Nat) (env : AfsEnv)
    (ds : DaemonState) (req : Request) (fdv : Nat) (m : String)
    (hcap : ds.num_flows < maxFlows)
    (hw : env.callocWriteOk = true) (hr : env.callocReadOk = true)
    (hn2s : (name2socket env.resolve false true true true
        req.settings.requested_read_buffer_size req.settings.requested_send_buffer_size
        req.source_settings.destination_port
        req.source_settings.destination_host).retFd = some fdv)
    (hopt : env.tcpOptsErr = some m) :
    (add_flow_source maxFlows env ds req).ret = -1 ∧
    (add_flow_source maxFlows env ds req).req.r_error
      = some (ErrMsg.tcpOptFail m) ∧
    Event.evUninit false ∈ (add_flow_source maxFlows env ds req).trace := by
  have hcap2 : ¬ (maxFlows ≤ ds.num_flows) := Nat.not_le.mpr hcap
  simp [add_flow_source, if_neg hcap2, hw, hr, callocBlock, hopt, hn2s,
    rollbackFlow, uninit_flow]

/-- Environment in which `set_flow_tcp_options` fails. -/
def wEnvTcpOptFail : AfsEnv :=
  { wEnv with tcpOptsErr := some "Unable to set TCP_NODELAY" }

/-- C9 witness: a concrete admission failing in `set_flow_tcp_options`
transfers the message to the request and tears down with the flow's error
already null. -/
theorem add_flow_source_tcp_options_error_transfer_witness :
    (add_flow_source 4 wEnvTcpOptFail wDs wRequest).ret = -1 ∧
    (add_flow_source 4 wEnvTcpOptFail wDs wRequest).req.r_error
      = some (ErrMsg.tcpOptFail "Unable to set TCP_NODELAY") ∧
    Event.evUninit false ∈ (add_flow_source 4 wEnvTcpOptFail wDs wRequest).trace :=
  add_flow_source_tcp_options_error_transfer 4 wEnvTcpOptFail wDs wRequest 7
    "Unable to set TCP_NODELAY" (by decide) rfl rfl rfl rfl

/-- C10: the flow's buffers are allocated zero-initialized (`calloc`), so
on a successful admission with byte counting disabled both blocks are the
all-zero buffer and every write-buffer byte below the maximum block size
is 0. -/
theorem add_flow_source_zero_buffers (maxFlows : Nat) (env : AfsEnv)
    (ds : DaemonState) (req : Request) (fdv : Nat) (i : Nat)
    (hcap : ds.num_flows < maxFlows)
    (hw : env.callocWriteOk = true) (hr : env.callocReadOk = true)
    (hbc : req.settings.byte_counting = false)
    (hn2s : (name2socket env.resolve false true true true
        req.settings.requested_read_buffer_size req.settings.requested_send_buffer_size
        req.source_settings.destination_port
        req.source_settings.destination_host).retFd = some fdv)
    (hopt : env.tcpOptsErr = none)
    (hcc : env.hasTcpCongestion = false ∨ env.ccOk = true)
    (hlen : ds.num_flows < ds.flows.length)
    (hi : i < req.settings.maximum_block_size) :
    (add_flow_source maxFlows env ds req).ret = 0 ∧
    ((add_flow_source maxFlows env ds req).ds.flows[ds.num_flows]?).map
      Flow.write_block
      = some (some (List.replicate req.settings.maximum_block_size 0)) ∧
    ((add_flow_source maxFlows env ds req).ds.flows[ds.num_flows]?).map
      Flow.read_block
      = some (some (List.replicate req.settings.maximum_block_size 0)) ∧
    (List.replicate req.settings.maximum_block_size (0 : ℕ))[i]? = some 0 := by
  have hcap2 : ¬ (maxFlows ≤ ds.num_flows) := Nat.not_le.mpr hcap
  have hz : (List.replicate req.settings.maximum_block_size (0 : ℕ))[i]? = some 0 :=
    List.getElem?_replicate_of_lt hi
  refine ⟨?_, ?_, ?_, hz⟩ <;>
  · rcases hcc with hcc | hcc <;>
    cases hlc : req.source_settings.late_connect <;>
    cases hpc : env.hasPcap <;>
    simp [add_flow_source, if_neg hcap2, hw, hr, callocBlock, hopt, hn2s, hbc,
      hlc, hpc, hcc, List.getElem?_set_self hlen]

/-- Request with byte counting disabled. -/
def wRequestPlain : Request :=
  { wRequest with settings := { wSettings with byte_counting := false } }

/-- C10 witness: a concrete successful admission without byte counting
leaves both blocks all zero. -/
theorem add_flow_source_zero_buffers_witness :
    (add_flow_source 4 wEnv wDs wRequestPlain).ret = 0 ∧
    ((add_flow_source 4 wEnv wDs wRequestPlain).ds.flows[wDs.num_flows]?).map
      Flow.write_block
      = some (some (List.replicate wRequestPlain.settings.maximum_block_size 0)) ∧
    ((add_flow_source 4 wEnv wDs wRequestPlain).ds.flows[wDs.num_flows]?).map
      Flow.read_block
      = some (some (List.replicate wRequestPlain.settings.maximum_block_size 0)) ∧
    (List.replicate wRequestPlain.settings.maximum_block_size (0 : ℕ))[(12 : ℕ)]?
      = some 0 :=
  add_flow_source_zero_buffers 4 wEnv wDs wRequestPlain 7 12 (by decide) rfl rfl rfl
    rfl rfl (Or.inr rfl) (by decide) (by decide)

end Flowgrind
